import Mathlib

/-!
Verification of the pg-graphql-mcp client (`pg_graphql_mcp.py`).

The development shallowly embeds the program's data model and operations:

* Decoded JSON / Python values are the inductive `JVal`; Python dictionaries
  are association lists in insertion order.
* The single HTTP call performed by `urllib.request.urlopen` is an external
  collaborator; its outcome is passed in explicitly as a `UrlOpenOutcome`
  (either a raised `urllib.error.URLError` or a response with a status code
  and a raw body).  Likewise the `json.loads` decoder of the standard
  library is passed in as a function `String → Except String JVal`
  (the error carries the `JSONDecodeError` message).
* Raising an exception is modelled with `Except String`; the exposed
  operations catch every exception at their boundary and produce a JSON
  payload, modelled by `OpResult`.
-/

/-- A decoded JSON value (equivalently, the Python values produced by
`json.loads`): null, booleans, integers, strings, arrays and objects.
Objects keep their key/value pairs in insertion order. -/
inductive JVal where
  | null : JVal
  | bool : Bool → JVal
  | int : Int → JVal
  | str : String → JVal
  | arr : List JVal → JVal
  | obj : List (String × JVal) → JVal

/-- Python `v[k]` / `k in v` style lookup for mapping values.  On a
non-mapping value the claims are never exercised (Python's `in` there
either raises `TypeError` or performs element/substring search); we model
those values as having no keys. -/
def jvalGet : JVal → String → Option JVal
  | JVal.obj m, k => m.lookup k
  | _, _ => none

/-- Python truthiness of a decoded JSON value: `None`, `False`, `0`, `""`,
`[]` and `{}` are falsy, everything else is truthy. -/
def jvalFalsy : JVal → Bool
  | JVal.null => true
  | JVal.bool b => !b
  | JVal.int n => n == 0
  | JVal.str s => s.data.isEmpty
  | JVal.arr xs => xs.isEmpty
  | JVal.obj m => m.isEmpty

/-- Python `s.startswith(p)`. -/
def pyStartsWith (s p : String) : Bool := p.data.isPrefixOf s.data

/-- Python `s.endswith(p)`. -/
def pyEndsWith (s p : String) : Bool := p.data.isSuffixOf s.data

/-- Python `s[:-n]`: the string without its last `n` characters (empty when
`n ≥ len(s)`). -/
def pySliceDropLast (s : String) (n : Nat) : String :=
  String.mk (s.data.take (s.data.length - n))

/-- The characters removed by Python's default `str.strip()` (and used by
`str` truthiness of stripped text): CPython's Unicode whitespace set,
i.e. U+0009..U+000D, U+001C..U+001F, space, U+0085 (NEL), U+00A0 (NBSP),
U+1680 (Ogham space), U+2000..U+200A, U+2028, U+2029, U+202F, U+205F and
U+3000 (ideographic space). -/
def pyIsSpace (c : Char) : Bool :=
  (9 ≤ c.toNat && c.toNat ≤ 13) || (28 ≤ c.toNat && c.toNat ≤ 31)
  || c.toNat == 32 || c.toNat == 133 || c.toNat == 160 || c.toNat == 5760
  || (8192 ≤ c.toNat && c.toNat ≤ 8202) || c.toNat == 8232
  || c.toNat == 8233 || c.toNat == 8239 || c.toNat == 8287
  || c.toNat == 12288

/-- Python truthiness of a string: nonempty. -/
def pyTruthyStr (s : String) : Bool := !s.data.isEmpty

/-- Python `s.strip()` with no argument: remove leading and trailing
whitespace. -/
def pyStrip (s : String) : String :=
  String.mk (((s.data.dropWhile pyIsSpace).reverse.dropWhile pyIsSpace).reverse)

/-- ASCII upper-casing of one character, as Python's `str.capitalize`
performs on the first character (identifier inputs are ASCII-only). -/
def asciiToUpper : Char → Char
  | 'a' => 'A' | 'b' => 'B' | 'c' => 'C' | 'd' => 'D' | 'e' => 'E' | 'f' => 'F'
  | 'g' => 'G' | 'h' => 'H' | 'i' => 'I' | 'j' => 'J' | 'k' => 'K' | 'l' => 'L'
  | 'm' => 'M' | 'n' => 'N' | 'o' => 'O' | 'p' => 'P' | 'q' => 'Q' | 'r' => 'R'
  | 's' => 'S' | 't' => 'T' | 'u' => 'U' | 'v' => 'V' | 'w' => 'W' | 'x' => 'X'
  | 'y' => 'Y' | 'z' => 'Z'
  | c => c

/-- ASCII lower-casing of one character, as Python's `str.capitalize`
performs on every character after the first. -/
def asciiToLower : Char → Char
  | 'A' => 'a' | 'B' => 'b' | 'C' => 'c' | 'D' => 'd' | 'E' => 'e' | 'F' => 'f'
  | 'G' => 'g' | 'H' => 'h' | 'I' => 'i' | 'J' => 'j' | 'K' => 'k' | 'L' => 'l'
  | 'M' => 'm' | 'N' => 'n' | 'O' => 'o' | 'P' => 'p' | 'Q' => 'q' | 'R' => 'r'
  | 'S' => 's' | 'T' => 't' | 'U' => 'u' | 'V' => 'v' | 'W' => 'w' | 'X' => 'x'
  | 'Y' => 'y' | 'Z' => 'z'
  | c => c

/-- Python `s.capitalize()`: the first character upper-cased and every
remaining character lower-cased (ASCII model; all identifier inputs are
ASCII). -/
def pyCapitalize (s : String) : String :=
  match s.data with
  | [] => ""
  | c :: cs => String.mk (asciiToUpper c :: cs.map asciiToLower)

/-- The outcome of the single `urllib.request.urlopen` call, treated as an
external collaborator:

* `urlError m` — a raised `urllib.error.URLError` that is not an
  `HTTPError` (connection refused, DNS failure, timeout), with `str(e)`;
* `httpError status reason` — a raised `urllib.error.HTTPError`: the
  default opener raises it for every response with a status outside
  200..299, *before* the caller can read the status or body; it is a
  subclass of `URLError`, so `except urllib.error.URLError` catches it,
  and its `str(e)` is `f"HTTP Error {code}: {reason}"` (no response
  body);
* `response status body` — a delivered response with its status code and
  raw UTF-8 body; the default opener only ever delivers 2xx statuses, so
  the code's `status != 200` branch is reachable only for 201..299. -/
inductive UrlOpenOutcome where
  | urlError : String → UrlOpenOutcome
  | httpError : Nat → String → UrlOpenOutcome
  | response : Nat → String → UrlOpenOutcome

/-- `str(e)` of a raised `urllib.error.HTTPError`:
`f"HTTP Error {code}: {reason}"`. -/
def httpErrorStr (status : Nat) (reason : String) : String :=
  "HTTP Error " ++ toString status ++ ": " ++ reason

/-- `f"Network request error: {str(e)}"` raised for a `URLError`. -/
def networkErrorMsg (m : String) : String := "Network request error: " ++ m

/-- `f"HTTP Error: {response.status} - {error_data}"` raised for a non-200
status. -/
def httpErrorMsg (status : Nat) (body : String) : String :=
  "HTTP Error: " ++ toString status ++ " - " ++ body

/-- `f"JSON parsing error: {str(e)}"` raised for a `json.JSONDecodeError`. -/
def jsonParsingErrorMsg (m : String) : String := "JSON parsing error: " ++ m

/-- `err.get("message", "Unknown Error")` for one entry of the `errors`
array.  (A present non-string `message` value would make the subsequent
`"; ".join` raise a `TypeError` in Python; no claim involves such entries,
and this model collapses them to the default text.) -/
def pyErrEntryMessage (e : JVal) : String :=
  match jvalGet e "message" with
  | some (JVal.str s) => s
  | some _ => "Unknown Error"
  | none => "Unknown Error"

/-- `f"GraphQL Error: {error_msg}"` where `error_msg` is the `"; "`-join of
the per-entry messages. -/
def graphQLErrorMsg (es : List JVal) : String :=
  "GraphQL Error: " ++ String.intercalate "; " (es.map pyErrEntryMessage)

/-- Placeholder for the message of the `TypeError`/`AttributeError` Python
raises when the `errors` key holds a non-list value; its exact text is
environment-specific and outside every claim. -/
def graphQLNonListErrorsMsg : String := "errors value is not iterable"

/-- Python `variables or {}` in the payload construction: a falsy value
(`None` here arriving as `Option.none`, or an empty/falsy decoded value)
is replaced by the empty mapping. -/
def pyOrEmptyObj : Option JVal → JVal
  | none => JVal.obj []
  | some v => if jvalFalsy v then JVal.obj [] else v

/-- An optional string as serialized by `json.dumps`: `None` becomes
JSON `null`. -/
def optStrJVal : Option String → JVal
  | none => JVal.null
  | some s => JVal.str s

/-- The request body dictionary built at the top of
`GraphQLClient.execute_query`:
`{"query": query, "variables": variables or {}, "operationName": operation_name}`. -/
def executeQueryPayload (query : String) (vars : Option JVal)
    (operation_name : Option String) : List (String × JVal) :=
  [("query", JVal.str query),
   ("variables", pyOrEmptyObj vars),
   ("operationName", optStrJVal operation_name)]

/-- The headers set by `execute_query`. -/
def executeQueryHeaders : List (String × String) :=
  [("Content-Type", "application/json"), ("Accept", "application/json")]

/-- The timeout passed to `urlopen`. -/
def executeQueryTimeout : Nat := 30

/-- The one HTTP POST request a call to `execute_query` sends: the
serialized payload, the headers and the timeout. -/
structure SentRequest where
  payload : List (String × JVal)
  headers : List (String × String)
  timeout : Nat

/-- The `if "errors" in result:` check of `execute_query` on the decoded
result: a present `errors` array raises the joined GraphQL error,
otherwise the whole decoded result is returned. -/
def checkGraphQLErrors (result : JVal) : Except String JVal :=
  match jvalGet result "errors" with
  | some (JVal.arr es) => Except.error (graphQLErrorMsg es)
  | some _ => Except.error graphQLNonListErrorsMsg
  | none => Except.ok result

/-- Decoding and checking of a status-200 response body in
`execute_query`: `json.loads` then the `errors` check. -/
def handleResponseBody (jsonLoads : String → Except String JVal)
    (body : String) : Except String JVal :=
  match jsonLoads body with
  | Except.error m => Except.error (jsonParsingErrorMsg m)
  | Except.ok result => checkGraphQLErrors result

/-- `GraphQLClient.execute_query`.  The first component is the returned
decoded result or the message of the raised exception; the second records
the single HTTP request that was sent.  `jsonLoads` models the standard
library `json.loads`; `net` is the outcome of the `urlopen` call. -/
def execute_query (jsonLoads : String → Except String JVal) (query : String)
    (vars : Option JVal) (operation_name : Option String)
    (net : UrlOpenOutcome) : Except String JVal × SentRequest :=
  (match net with
   | UrlOpenOutcome.urlError m => Except.error (networkErrorMsg m)
   | UrlOpenOutcome.httpError status reason =>
     Except.error (networkErrorMsg (httpErrorStr status reason))
   | UrlOpenOutcome.response status body =>
     if status ≠ 200 then Except.error (httpErrorMsg status body)
     else handleResponseBody jsonLoads body,
   SentRequest.mk (executeQueryPayload query vars operation_name)
     executeQueryHeaders executeQueryTimeout)

/-- The value returned by an exposed operation.  Python returns the string
`json.dumps(v, ensure_ascii=False, indent=2)`; we keep the value `v`
itself since no claim depends on the concrete serialization.  `rawVal v`
models a `return result` that returns the decoded object itself instead of
a string. -/
inductive OpResult where
  | jsonStr : JVal → OpResult
  | rawVal : JVal → OpResult

/-- The uniform `except Exception` boundary of the exposed operations:
a successful result is dumped as-is, a raised exception becomes
`{"error": str(e)}`. -/
def opResultOf : Except String JVal → OpResult
  | Except.ok v => OpResult.jsonStr v
  | Except.error e => OpResult.jsonStr (JVal.obj [("error", JVal.str e)])

/-- The introspection query literal built in `list_tables`. -/
def listTablesQueryStr : String :=
  "\n    query ListTables \x7b\n      __schema \x7b\n        queryType \x7b\n          fields \x7b\n            name\n            description\n            type \x7b\n              kind\n              name\n              ofType \x7b\n                kind\n                name\n              \x7d\n            \x7d\n          \x7d\n        \x7d\n      \x7d\n    \x7d\n    "

/-- One entry of the introspection response's root-field list, as consumed
by `list_tables`: the `name` value (a string, or the loop raises) and the
`description` key (absent, or any value, possibly JSON null). -/
structure QueryField where
  name : String
  description : Option JVal

/-- One entry of the table catalog, i.e. the dictionary
`{"name": table_name, "type": "collection", "description": field.get("description", "")}`
appended by `list_tables`.  The `type` field is the claim's `kind` marker;
it is serialized under the JSON key `"type"`. -/
structure TableDescriptor where
  name : String
  type : String
  description : JVal

/-- `field_name[:-10]`: the table name obtained by stripping the
10-character `"Collection"` suffix. -/
def tableNameOf (fieldName : String) : String := pySliceDropLast fieldName 10

/-- The descriptor `list_tables` appends for a kept field. -/
def descriptorOfField (f : QueryField) : TableDescriptor :=
  TableDescriptor.mk (tableNameOf f.name) "collection" (f.description.getD (JVal.str ""))

/-- The filtering loop of `list_tables`: keep each field whose name does not
start with `"__"` and ends with `"Collection"`, in order, and record its
descriptor. -/
def buildTables : List QueryField → List TableDescriptor
  | [] => []
  | f :: fs =>
    if !pyStartsWith f.name "__" && pyEndsWith f.name "Collection" then
      descriptorOfField f :: buildTables fs
    else buildTables fs

/-- A table descriptor as serialized into the response JSON. -/
def descToJVal (d : TableDescriptor) : JVal :=
  JVal.obj [("name", JVal.str d.name), ("type", JVal.str d.type),
            ("description", d.description)]

/-- The success payload of `list_tables`:
`{"tables": tables, "total": len(tables)}`. -/
def listTablesSuccessValue (fields : List QueryField) : JVal :=
  JVal.obj [("tables", JVal.arr ((buildTables fields).map descToJVal)),
            ("total", JVal.int ((buildTables fields).length))]

/-- Reading one element of the `fields` array: `field["name"]` must exist
and be a string (otherwise the loop raises a `KeyError`/`AttributeError`,
modelled as `none`); `field.get("description", ...)` reads the
`description` key if present. -/
def parseQueryField : JVal → Option QueryField
  | JVal.obj m =>
    match m.lookup "name" with
    | some (JVal.str n) => some (QueryField.mk n (m.lookup "description"))
    | _ => none
  | _ => none

/-- The navigation `result["data"]["__schema"]["queryType"]["fields"]`
followed by the field loop; `none` models any raised
`KeyError`/`TypeError`, which the operation's `except Exception` turns
into an error payload. -/
def listTablesFields (result : JVal) : Option (List QueryField) :=
  (jvalGet result "data").bind fun d =>
  (jvalGet d "__schema").bind fun sc =>
  (jvalGet sc "queryType").bind fun qt =>
  match jvalGet qt "fields" with
  | some (JVal.arr fs) => fs.mapM parseQueryField
  | _ => none

/-- Placeholder for `str(e)` of the exception raised while navigating the
decoded schema shape; its exact text is environment-specific and outside
every claim. -/
def listTablesShapeErrorMsg : String := "unexpected introspection shape"

/-- The exposed operation `list_tables`.  Note the `return result` branch:
when the decoded result has no `"data"` key, or its `"data"` value has no
`"__schema"` key, the *decoded object itself* is returned instead of a
JSON string (`OpResult.rawVal`). -/
def list_tables (jsonLoads : String → Except String JVal)
    (net : UrlOpenOutcome) : OpResult :=
  match (execute_query jsonLoads listTablesQueryStr none none net).1 with
  | Except.error e => OpResult.jsonStr (JVal.obj [("error", JVal.str e)])
  | Except.ok result =>
    match jvalGet result "data" with
    | none => OpResult.rawVal result
    | some d =>
      match jvalGet d "__schema" with
      | none => OpResult.rawVal result
      | some _ =>
        match listTablesFields result with
        | some fields => OpResult.jsonStr (listTablesSuccessValue fields)
        | none =>
          OpResult.jsonStr (JVal.obj [("error", JVal.str listTablesShapeErrorMsg)])

/-- The tail of `graphql_query` once the variables string has been handled:
execute the query and dump the result; the second component is the list of
HTTP requests issued. -/
def graphqlQuerySend (jsonLoads : String → Except String JVal) (query : String)
    (pv : Option JVal) (operation_name : Option String)
    (net : UrlOpenOutcome) : OpResult × List SentRequest :=
  (opResultOf (execute_query jsonLoads query pv operation_name net).1,
   [(execute_query jsonLoads query pv operation_name net).2])

/-- The exposed operation `graphql_query`: parse the optional JSON
variables string (guarded by `if variables and variables.strip():`),
then delegate to `execute_query`.  A `json.JSONDecodeError` while parsing
the variables string returns `{"error": "Variables JSON format error"}`
without issuing any HTTP request. -/
def graphql_query (jsonLoads : String → Except String JVal) (query : String)
    (varsStr : Option String) (operation_name : Option String)
    (net : UrlOpenOutcome) : OpResult × List SentRequest :=
  match varsStr with
  | some s =>
    if pyTruthyStr s && pyTruthyStr (pyStrip s) then
      match jsonLoads s with
      | Except.error _ =>
        (OpResult.jsonStr (JVal.obj [("error", JVal.str "Variables JSON format error")]), [])
      | Except.ok pv => graphqlQuerySend jsonLoads query (some pv) operation_name net
    else graphqlQuerySend jsonLoads query none operation_name net
  | none => graphqlQuerySend jsonLoads query none operation_name net

/-- The fixed text of the collection query template before the operation
name interpolation. -/
def qTemplateA : String := "\n    query "

/-- The fixed text between the operation name and the root field
interpolations. -/
def qTemplateB : String := "($first: Int, $after: String) \x7b\n      "

/-- The fixed text of the collection query template after the root field
interpolation. -/
def qTemplateC : String :=
  "(first: $first, after: $after) \x7b\n        edges \x7b\n          node \x7b\n            id\n          \x7d\n          cursor\n        \x7d\n        pageInfo \x7b\n          hasNextPage\n          hasPreviousPage\n          endCursor\n          startCursor\n        \x7d\n      \x7d\n    \x7d\n    "

/-- The interpolation `Get{collection_name.capitalize()}Collection` naming
the operation. -/
def opNameInterp (c : String) : String := "Get" ++ pyCapitalize c ++ "Collection"

/-- The interpolation `{collection_name}Collection` naming the root field. -/
def rootFieldInterp (c : String) : String := c ++ "Collection"

/-- The query f-string built by `execute_collection_query` (lines 298-315),
regrouped around its two interpolation sites. -/
def collectionQueryString (c : String) : String :=
  qTemplateA ++ opNameInterp c ++ qTemplateB ++ rootFieldInterp c ++ qTemplateC

/-- The variables mapping built by `execute_collection_query`:
`variables = {"first": first}` and then `if after: variables["after"] = after`
(Python truthiness: the key is added only for a non-empty cursor string). -/
def collectionQueryVariables (first : Int) (after : Option String) :
    List (String × JVal) :=
  match after with
  | some s =>
    if s.data.isEmpty then [("first", JVal.int first)]
    else [("first", JVal.int first), ("after", JVal.str s)]
  | none => [("first", JVal.int first)]

/-- The exposed operation `execute_collection_query`.  The `whereCond` and
`order_by` parameters are accepted and ignored by the source, which never
splices them into the query. -/
def execute_collection_query (jsonLoads : String → Except String JVal)
    (collection_name : String) (first : Int) (after : Option String)
    (whereCond : Option String) (order_by : Option String)
    (net : UrlOpenOutcome) : OpResult × SentRequest :=
  let r := execute_query jsonLoads (collectionQueryString collection_name)
      (some (JVal.obj (collectionQueryVariables first after))) none net
  (opResultOf r.1, r.2)

/-- First character of the identifier pattern `^[A-Za-z_][A-Za-z0-9_]*$`. -/
def isIdentStart (c : Char) : Bool := c.isAlpha || c == '_'

/-- Continuation character of the identifier pattern. -/
def isIdentChar (c : Char) : Bool := c.isAlphanum || c == '_'

/-- The identifier pattern `^[A-Za-z_][A-Za-z0-9_]*$` required of a
collection name before interpolating it into the query template. -/
def matchesIdentPattern (s : String) : Bool :=
  match s.data with
  | [] => false
  | c :: cs => isIdentStart c && cs.all isIdentChar

/-- A standard GraphQL error entry: `{"message": s}` for a present string
message, `{}` for a missing one. -/
def mkErrEntry : Option String → JVal
  | none => JVal.obj []
  | some s => JVal.obj [("message", JVal.str s)]

/-- Whitespace as it occurs inside the query template (spaces and
newlines). -/
def wsChar (c : Char) : Bool := c == ' ' || c == '\n'

/-- The character `{`. -/
def lbraceChar : Char := Char.ofNat 123

/-- Extract the operation name from the text of a named query operation:
skip leading whitespace and the keyword `query` with its trailing blank,
then read up to the variable-definition parenthesis. -/
def opNameOf (q : String) : String :=
  String.mk (((q.data.dropWhile wsChar).drop 6).takeWhile (fun c => c != '('))

/-- Extract the root field from the text of a query operation: skip past
the opening brace of the selection set and the following whitespace, then
read up to the argument parenthesis. -/
def rootFieldOf (q : String) : String :=
  String.mk ((((q.data.dropWhile (fun c => c != lbraceChar)).drop 1).dropWhile
    wsChar).takeWhile (fun c => c != '('))

/-- Modelled from the claim's words: a capitalization that upper-cases the
first character and leaves the remaining characters unchanged (this is
*not* what Python's `str.capitalize` does; it is stated here only to be
refuted). -/
def claimCapitalize (s : String) : String :=
  match s.data with
  | [] => ""
  | c :: cs => String.mk (asciiToUpper c :: cs)

/-! ### Helper lemmas -/

/-- The filtering loop of `list_tables` is the filter of the kept fields
followed by the descriptor map. -/
theorem buildTables_eq_filter_map (fields : List QueryField) :
    buildTables fields
      = (fields.filter fun f =>
          pyEndsWith f.name "Collection" && !pyStartsWith f.name "__").map
            descriptorOfField := by
  induction fields with
  | nil => rfl
  | cons f fs ih =>
    cases h1 : pyStartsWith f.name "__" <;> cases h2 : pyEndsWith f.name "Collection" <;>
      simp [buildTables, List.filter_cons, h1, h2, ih]

/-- A field that passes the `list_tables` filter contributes its descriptor
to the catalog. -/
theorem descriptor_mem_buildTables {fs : List QueryField} {f : QueryField}
    (hmem : f ∈ fs)
    (hcond : (!pyStartsWith f.name "__" && pyEndsWith f.name "Collection") = true) :
    descriptorOfField f ∈ buildTables fs := by
  induction fs with
  | nil => cases hmem
  | cons g gs ih =>
    rcases List.mem_cons.mp hmem with hf | hf
    · subst hf
      simp [buildTables, hcond]
    · cases hg : (!pyStartsWith g.name "__" && pyEndsWith g.name "Collection") <;>
        simp [buildTables, hg] <;> [skip; right] <;> exact ih hf

/-! ### Claim theorems -/

/-- C1 (code bug): `list_tables` is claimed to always return a string, but
when the transport delivers HTTP 200 with the body `{}` (valid JSON with
no `data` key), the code's `return result` hands back the decoded dict
object itself, not a JSON string — contradicting its own `-> str`
annotation.  The theorem evaluates the embedded operation at that failing
input: the outcome is `OpResult.rawVal` (a non-string return), which is
distinct from every string return `OpResult.jsonStr`. -/
theorem list_tables_returns_raw_dict :
    list_tables (fun _ => Except.ok (JVal.obj []))
        (UrlOpenOutcome.response 200 "\x7b\x7d")
      = OpResult.rawVal (JVal.obj [])
    ∧ ∀ v : JVal, OpResult.rawVal (JVal.obj []) ≠ OpResult.jsonStr v := by
  refine ⟨rfl, ?_⟩
  intro v h
  exact OpResult.noConfusion h

/-- C2: on a given root-field list, `list_tables` keeps exactly the fields
whose name ends with `"Collection"` and does not start with `"__"`, in
server order, records for each the descriptor with the 10-character suffix
stripped, the `"collection"` kind marker and the field's description or
empty string, and reports `total` = the number of descriptors; the
spec's scenario `["newsCollection", "accountCollection", "__typename"]`
yields exactly the two descriptors `news` and `account`. -/
theorem list_tables_catalog (fields : List QueryField) :
    buildTables fields
      = (fields.filter fun f =>
          pyEndsWith f.name "Collection" && !pyStartsWith f.name "__").map
            descriptorOfField
    ∧ (∀ f : QueryField, descriptorOfField f
        = TableDescriptor.mk (pySliceDropLast f.name 10) "collection"
            (f.description.getD (JVal.str "")))
    ∧ jvalGet (listTablesSuccessValue fields) "total"
        = some (JVal.int ((buildTables fields).length))
    ∧ buildTables
        [QueryField.mk "newsCollection" none,
         QueryField.mk "accountCollection" none,
         QueryField.mk "__typename" none]
      = [TableDescriptor.mk "news" "collection" (JVal.str ""),
         TableDescriptor.mk "account" "collection" (JVal.str "")] :=
  ⟨buildTables_eq_filter_map fields, fun _ => rfl, rfl, rfl⟩

/-- C4: the variables mapping of `execute_collection_query` always binds
`first` to the page size; it binds `after` exactly when the caller
supplied a non-empty cursor (and then to that string), and omits the key
entirely otherwise; the built request's `variables` entry is that
mapping. -/
theorem collection_query_variables_binding
    (jsonLoads : String → Except String JVal) (c : String) (first : Int)
    (after : Option String) (net : UrlOpenOutcome) :
    (collectionQueryVariables first after).lookup "first" = some (JVal.int first)
    ∧ (collectionQueryVariables first after).lookup "after"
        = (match after with
           | some s => if s.data.isEmpty then none else some (JVal.str s)
           | none => none)
    ∧ (execute_collection_query jsonLoads c first after none none
        net).2.payload.lookup "variables"
        = some (JVal.obj (collectionQueryVariables first after)) := by
  have hsome : ∀ s : String, collectionQueryVariables first (some s)
      = if s.data.isEmpty then [("first", JVal.int first)]
        else [("first", JVal.int first), ("after", JVal.str s)] := fun _ => rfl
  have hreq : (execute_collection_query jsonLoads c first after none none
      net).2.payload.lookup "variables"
      = some (pyOrEmptyObj (some (JVal.obj (collectionQueryVariables first
          after)))) := rfl
  refine ⟨?_, ?_, ?_⟩ <;> [skip; skip; rw [hreq]] <;>
    cases after with
    | none => rfl
    | some s =>
      rw [hsome s]
      cases hs : s.data.isEmpty <;> simp only [hs, Bool.false_eq_true, if_true,
        if_false, ite_true, ite_false] <;> rfl

/-- C5: stripping the `"Collection"` suffix in the catalog builder and
re-appending it in the query builder compose to the identity on every
field name ending with `"Collection"`: the built query's root field
interpolation recovers the original introspection field name. -/
theorem strip_append_roundtrip (fname : String)
    (h : pyEndsWith fname "Collection" = true) :
    rootFieldInterp (tableNameOf fname) = fname := by
  have hsuf : List.IsSuffix "Collection".data fname.data := by
    unfold pyEndsWith at h
    exact List.isSuffixOf_iff_suffix.mp h
  obtain ⟨t, ht⟩ := hsuf
  have h10 : ("Collection".data).length = 10 := rfl
  have hlen : fname.data.length - 10 = t.length := by
    rw [← ht, List.length_append, h10]
    omega
  have htake : fname.data.take (fname.data.length - 10) = t := by
    rw [hlen, ← ht, List.take_left]
  show String.mk (fname.data.take (fname.data.length - 10)) ++ "Collection" = fname
  rw [htake]
  show String.mk (t ++ "Collection".data) = fname
  rw [ht]

/-- Witness for C5 at the concrete field name `newsCollection`. -/
theorem strip_append_roundtrip_witness :
    rootFieldInterp (tableNameOf "newsCollection") = "newsCollection" :=
  strip_append_roundtrip "newsCollection" (by decide)

/-- C6 (code bug): the claim (and the spec) say a 500 response is
reported as an HTTP failure carrying the status code and the raw body,
distinguishable from the network-error class — and the code's
`if response.status != 200` branch was written to do exactly that.  But
`urlopen` raises `HTTPError` (a `URLError` subclass) for every non-2xx
status before that branch can run, so a 500 is caught by
`except urllib.error.URLError` and reported as
`Network request error: HTTP Error 500: Internal Server Error` — in the
network-error class, without the raw body, and never equal to the
intended `HTTP Error: 500 - {body}` message for any body. -/
theorem http_error_misclassified (jsonLoads : String → Except String JVal)
    (q : String) (v : Option JVal) (o : Option String) :
    (execute_query jsonLoads q v o
        (UrlOpenOutcome.httpError 500 "Internal Server Error")).1
      = Except.error
          "Network request error: HTTP Error 500: Internal Server Error"
    ∧ (∃ m : String,
        "Network request error: HTTP Error 500: Internal Server Error"
          = networkErrorMsg m)
    ∧ ∀ body : String,
        "Network request error: HTTP Error 500: Internal Server Error"
          ≠ httpErrorMsg 500 body := by
  refine ⟨rfl, ⟨"HTTP Error 500: Internal Server Error", rfl⟩, ?_⟩
  intro body heq
  have h1 : (httpErrorMsg 500 body).data.head? = some 'H' := rfl
  rw [← heq] at h1
  exact absurd h1 (by decide)

/-- C7: a decoded response body containing an `errors` key makes
`execute_query` fail regardless of any sibling keys (`data` included), and
the reported message joins the entries' `message` fields with `"; "`,
substituting `"Unknown Error"` for every entry missing a `message`
field. -/
theorem graphql_errors_reported (jsonLoads : String → Except String JVal)
    (q : String) (v : Option JVal) (o : Option String) (body : String)
    (m : List (String × JVal)) (msgs : List (Option String))
    (hdec : jsonLoads body = Except.ok (JVal.obj m))
    (herr : m.lookup "errors" = some (JVal.arr (msgs.map mkErrEntry))) :
    (execute_query jsonLoads q v o (UrlOpenOutcome.response 200 body)).1
      = Except.error ("GraphQL Error: " ++
          String.intercalate "; " (msgs.map fun om => om.getD "Unknown Error")) := by
  have hmap : (msgs.map mkErrEntry).map pyErrEntryMessage
      = msgs.map fun om => om.getD "Unknown Error" := by
    rw [List.map_map]
    apply List.map_congr_left
    intro om _
    cases om <;> rfl
  have h1 : (execute_query jsonLoads q v o (UrlOpenOutcome.response 200
      body)).1 = handleResponseBody jsonLoads body := rfl
  rw [h1]
  simp only [handleResponseBody, hdec]
  have h2 : jvalGet (JVal.obj m) "errors" = m.lookup "errors" := rfl
  simp only [checkGraphQLErrors, h2, herr, graphQLErrorMsg, hmap]

/-- Witness for C7: a body carrying both `data` and one error entry with
message `boom` is reported as `GraphQL Error: boom`. -/
theorem graphql_errors_reported_witness :
    (execute_query
        (fun _ => Except.ok (JVal.obj
          [("data", JVal.null),
           ("errors", JVal.arr [JVal.obj [("message", JVal.str "boom")]])]))
        "query Q" none none (UrlOpenOutcome.response 200 "ignored")).1
      = Except.error ("GraphQL Error: " ++
          String.intercalate "; "
            (([some "boom"] : List (Option String)).map
              fun om => om.getD "Unknown Error")) :=
  graphql_errors_reported _ "query Q" none none "ignored"
    [("data", JVal.null),
     ("errors", JVal.arr [JVal.obj [("message", JVal.str "boom")]])]
    [some "boom"] rfl rfl

/-- C8 (counterexample): the claim says that when no operation name is
supplied, the request body contains no `operationName` binding; in the
code the key is always present and bound to `None` (serialized as JSON
`null`). -/
theorem operation_name_always_present_cex :
    (executeQueryPayload "query Q" none none).lookup "operationName"
      = some JVal.null
    ∧ (executeQueryPayload "query Q" none none).lookup "operationName"
      ≠ none := by
  refine ⟨rfl, ?_⟩
  intro h
  exact Option.noConfusion h

/-- C8 (amended): every call to `execute_query` sends the payload
`{query, variables: the given variables or an empty mapping when falsy or
absent, operationName: the given name, or null when no name is supplied —
the key is always present}`, with `Content-Type`/`Accept` set to
`application/json` and a timeout of 30. -/
theorem execute_query_request_shape (jsonLoads : String → Except String JVal)
    (q : String) (v : Option JVal) (o : Option String) (net : UrlOpenOutcome) :
    (execute_query jsonLoads q v o net).2
      = SentRequest.mk (executeQueryPayload q v o) executeQueryHeaders 30
    ∧ (executeQueryPayload q v none).lookup "operationName" = some JVal.null
    ∧ (∀ s, (executeQueryPayload q v (some s)).lookup "operationName"
        = some (JVal.str s))
    ∧ (executeQueryPayload q none o).lookup "variables" = some (JVal.obj [])
    ∧ (executeQueryPayload q v o).lookup "query" = some (JVal.str q)
    ∧ executeQueryHeaders
        = [("Content-Type", "application/json"), ("Accept", "application/json")]
    ∧ executeQueryTimeout = 30 :=
  ⟨rfl, rfl, fun _ => rfl, rfl, rfl, rfl, rfl⟩

/-- C10: an introspection root field named exactly `Collection` passes the
filter of `list_tables` (it does not start with `__` and ends with
`Collection`), and its catalog descriptor has the empty string as name —
a name that fails the identifier pattern required by the collection query
builder. -/
theorem bare_collection_field (fs : List QueryField) (f : QueryField)
    (hmem : f ∈ fs) (hname : f.name = "Collection") :
    descriptorOfField f ∈ buildTables fs
    ∧ (descriptorOfField f).name = ""
    ∧ matchesIdentPattern "" = false := by
  have hcond : (!pyStartsWith f.name "__" && pyEndsWith f.name "Collection")
      = true := by
    rw [hname]
    decide
  refine ⟨descriptor_mem_buildTables hmem hcond, ?_, rfl⟩
  show tableNameOf f.name = ""
  rw [hname]
  rfl

/-- Witness for C10 at the one-field list `["Collection"]`. -/
theorem bare_collection_field_witness :
    descriptorOfField (QueryField.mk "Collection" none)
      ∈ buildTables [QueryField.mk "Collection" none]
    ∧ (descriptorOfField (QueryField.mk "Collection" none)).name = ""
    ∧ matchesIdentPattern "" = false :=
  bare_collection_field [QueryField.mk "Collection" none]
    (QueryField.mk "Collection" none) (List.mem_singleton.mpr rfl) rfl

/-- An identifier character is not an opening parenthesis. -/
theorem identChar_bne_lparen {c : Char} (h : isIdentChar c = true) :
    (c != '(') = true := by
  rw [bne_iff_ne]
  intro hc
  subst hc
  exact absurd h (by decide)

/-- An identifier character is not an opening brace. -/
theorem identChar_bne_lbrace {c : Char} (h : isIdentChar c = true) :
    (c != lbraceChar) = true := by
  rw [bne_iff_ne]
  intro hc
  subst hc
  exact absurd h (by decide)

/-- An identifier character is not template whitespace. -/
theorem identChar_not_ws {c : Char} (h : isIdentChar c = true) :
    wsChar c = false := by
  cases hc : wsChar c
  · rfl
  · simp only [wsChar, Bool.or_eq_true, beq_iff_eq] at hc
    rcases hc with hc | hc <;> subst hc <;> exact absurd h (by decide)

/-- An identifier start character is an identifier character. -/
theorem identStart_ident {c : Char} (h : isIdentStart c = true) :
    isIdentChar c = true := by
  simp only [isIdentStart, Bool.or_eq_true, beq_iff_eq] at h
  rcases h with h | h
  · simp [isIdentChar, Char.isAlphanum, h]
  · subst h
    decide

/-- ASCII upper-casing preserves identifier characters. -/
theorem asciiToUpper_ident {c : Char} (h : isIdentChar c = true) :
    isIdentChar (asciiToUpper c) = true := by
  unfold asciiToUpper
  split <;> first | decide | exact h

/-- ASCII lower-casing preserves identifier characters. -/
theorem asciiToLower_ident {c : Char} (h : isIdentChar c = true) :
    isIdentChar (asciiToLower c) = true := by
  unfold asciiToLower
  split <;> first | decide | exact h

/-- A valid identifier decomposes into a start character and identifier
continuation characters. -/
theorem matchesIdentPattern_decomp {c : String}
    (h : matchesIdentPattern c = true) :
    ∃ c0 cs, c.data = c0 :: cs ∧ isIdentStart c0 = true
      ∧ cs.all isIdentChar = true := by
  cases hd : c.data with
  | nil =>
    unfold matchesIdentPattern at h
    rw [hd] at h
    cases h
  | cons c0 cs =>
    unfold matchesIdentPattern at h
    rw [hd] at h
    rw [Bool.and_eq_true] at h
    exact ⟨c0, cs, rfl, h.1, h.2⟩

/-- Every character of a valid identifier is an identifier character. -/
theorem matchesIdentPattern_all {c : String}
    (h : matchesIdentPattern c = true) :
    ∀ a ∈ c.data, isIdentChar a = true := by
  obtain ⟨c0, cs, hd, h1, h2⟩ := matchesIdentPattern_decomp h
  rw [hd]
  intro a ha
  rcases List.mem_cons.mp ha with rfl | ha
  · exact identStart_ident h1
  · exact List.all_eq_true.mp h2 a ha

/-- Every character of `pyCapitalize c` of a valid identifier satisfies any
predicate preserved by ASCII case mapping on identifier characters. -/
theorem pyCapitalize_all {c : String} (h : matchesIdentPattern c = true)
    (p : Char → Bool)
    (hup : ∀ b : Char, isIdentChar b = true → p (asciiToUpper b) = true)
    (hlo : ∀ b : Char, isIdentChar b = true → p (asciiToLower b) = true) :
    ∀ a ∈ (pyCapitalize c).data, p a = true := by
  obtain ⟨c0, cs, hd, h1, h2⟩ := matchesIdentPattern_decomp h
  have hcap : (pyCapitalize c).data = asciiToUpper c0 :: cs.map asciiToLower := by
    unfold pyCapitalize
    rw [hd]
  rw [hcap]
  intro a ha
  rcases List.mem_cons.mp ha with rfl | ha
  · exact hup c0 (identStart_ident h1)
  · obtain ⟨b, hb, rfl⟩ := List.mem_map.mp ha
    exact hlo b (List.all_eq_true.mp h2 b hb)

/-- No character of the operation-name interpolation of a valid identifier
is an opening parenthesis. -/
theorem opNameInterp_no_lparen {c : String}
    (h : matchesIdentPattern c = true) :
    ∀ a ∈ (opNameInterp c).data, (a != '(') = true := by
  intro a ha
  simp only [opNameInterp, String.data_append, List.mem_append] at ha
  rcases ha with (ha | ha) | ha
  · revert a
    decide
  · exact pyCapitalize_all h (fun a => a != '(')
      (fun b hb => identChar_bne_lparen (asciiToUpper_ident hb))
      (fun b hb => identChar_bne_lparen (asciiToLower_ident hb)) a ha
  · revert a
    decide

/-- No character of the operation-name interpolation of a valid identifier
is an opening brace. -/
theorem opNameInterp_no_lbrace {c : String}
    (h : matchesIdentPattern c = true) :
    ∀ a ∈ (opNameInterp c).data, (a != lbraceChar) = true := by
  intro a ha
  simp only [opNameInterp, String.data_append, List.mem_append] at ha
  rcases ha with (ha | ha) | ha
  · revert a
    decide
  · exact pyCapitalize_all h (fun a => a != lbraceChar)
      (fun b hb => identChar_bne_lbrace (asciiToUpper_ident hb))
      (fun b hb => identChar_bne_lbrace (asciiToLower_ident hb)) a ha
  · revert a
    decide

/-- No character of the root-field interpolation of a valid identifier is
an opening parenthesis. -/
theorem rootFieldInterp_no_lparen {c : String}
    (h : matchesIdentPattern c = true) :
    ∀ a ∈ (rootFieldInterp c).data, (a != '(') = true := by
  intro a ha
  simp only [rootFieldInterp, String.data_append, List.mem_append] at ha
  rcases ha with ha | ha
  · exact identChar_bne_lparen (matchesIdentPattern_all h a ha)
  · revert a
    decide

/-- C3 (amended): for every collection name matching the identifier
pattern, the query built by `execute_collection_query` has root field
exactly `collection_name + "Collection"` and operation name exactly
`"Get" + capitalize(collection_name) + "Collection"`, where `capitalize`
is Python's `str.capitalize`: it upper-cases the first character and
*lower-cases* (not preserves) the remaining characters. -/
theorem collection_query_shape (c : String)
    (h : matchesIdentPattern c = true) :
    opNameOf (collectionQueryString c) = "Get" ++ pyCapitalize c ++ "Collection"
    ∧ rootFieldOf (collectionQueryString c) = c ++ "Collection" := by
  obtain ⟨c0, cs, hd, h1, h2⟩ := matchesIdentPattern_decomp h
  have h0 : (collectionQueryString c).data
      = qTemplateA.data ++ ((opNameInterp c).data ++ (qTemplateB.data ++
          ((rootFieldInterp c).data ++ qTemplateC.data))) := by
    simp [collectionQueryString, List.append_assoc]
  constructor
  · -- operation name
    have hstep1 : ((collectionQueryString c).data.dropWhile wsChar).drop 6
        = (opNameInterp c).data ++ (qTemplateB.data ++
            ((rootFieldInterp c).data ++ qTemplateC.data)) := by
      rw [h0]
      rfl
    have hstep2 : (qTemplateB.data ++
        ((rootFieldInterp c).data ++ qTemplateC.data)).takeWhile
          (fun a => a != '(') = [] := rfl
    show String.mk ((((collectionQueryString c).data.dropWhile wsChar).drop
        6).takeWhile (fun a => a != '(')) = _
    rw [hstep1, List.takeWhile_append_of_pos (opNameInterp_no_lparen h),
      hstep2, List.append_nil]
    rfl
  · -- root field
    have hstep1 : (collectionQueryString c).data.dropWhile
        (fun a => a != lbraceChar)
        = (qTemplateB.data ++ ((rootFieldInterp c).data ++
            qTemplateC.data)).dropWhile (fun a => a != lbraceChar) := by
      rw [h0, List.dropWhile_append_of_pos (by decide),
        List.dropWhile_append_of_pos (opNameInterp_no_lbrace h)]
    have hstep2 : ∀ W : List Char, (qTemplateB.data ++ W).dropWhile
        (fun a => a != lbraceChar)
        = lbraceChar :: '\n' :: ' ' :: ' ' :: ' ' :: ' ' :: ' ' :: ' ' :: W :=
      fun W => rfl
    have hstep3 : ∀ Z : List Char,
        ('\n' :: ' ' :: ' ' :: ' ' :: ' ' :: ' ' :: ' ' :: Z).dropWhile wsChar
        = Z.dropWhile wsChar := fun Z => rfl
    have hrootdata : (rootFieldInterp c).data ++ qTemplateC.data
        = c0 :: (cs ++ ("Collection".data ++ qTemplateC.data)) := by
      simp only [rootFieldInterp, String.data_append, hd, List.cons_append,
        List.append_assoc]
    have hstep4 : ((rootFieldInterp c).data ++ qTemplateC.data).dropWhile
        wsChar = (rootFieldInterp c).data ++ qTemplateC.data := by
      rw [hrootdata]
      exact List.dropWhile_cons_of_neg (by
        rw [identChar_not_ws (identStart_ident h1)]
        exact Bool.false_ne_true)
    have hstep5 : (qTemplateC.data).takeWhile (fun a => a != '(') = [] := rfl
    show String.mk (((((collectionQueryString c).data.dropWhile
        (fun a => a != lbraceChar)).drop 1).dropWhile wsChar).takeWhile
          (fun a => a != '(')) = _
    rw [hstep1, hstep2, List.drop_one, List.tail_cons, hstep3, hstep4,
      List.takeWhile_append_of_pos (rootFieldInterp_no_lparen h), hstep5,
      List.append_nil]
    rfl

/-- C3 (counterexample): for the valid identifier `myTable` the code's
operation name is `GetMytableCollection` (Python's `capitalize`
lower-cases the tail), not the claimed `GetMyTableCollection` built with a
tail-preserving capitalization. -/
theorem collection_query_capitalize_cex :
    matchesIdentPattern "myTable" = true
    ∧ opNameOf (collectionQueryString "myTable") = "GetMytableCollection"
    ∧ opNameOf (collectionQueryString "myTable")
        ≠ "Get" ++ claimCapitalize "myTable" ++ "Collection" := by
  refine ⟨by decide, rfl, ?_⟩
  intro hcontra
  have h1 : ("GetMytableCollection" : String)
      = "Get" ++ claimCapitalize "myTable" ++ "Collection" := hcontra
  exact absurd h1 (by decide)

/-- Witness for the amended C3 at the identifier `myTable`. -/
theorem collection_query_shape_witness :
    opNameOf (collectionQueryString "myTable")
      = "Get" ++ pyCapitalize "myTable" ++ "Collection"
    ∧ rootFieldOf (collectionQueryString "myTable")
      = "myTable" ++ "Collection" :=
  collection_query_shape "myTable" (by decide)

/-- The truthiness of `s.strip()` equals "some character of `s` is not
whitespace". -/
theorem pyStrip_truthy (s : String) :
    pyTruthyStr (pyStrip s) = s.data.any (fun ch => !pyIsSpace ch) := by
  have h1 : (((s.data.dropWhile pyIsSpace).reverse.dropWhile
      pyIsSpace).reverse = []) ↔ ∀ x ∈ s.data, pyIsSpace x = true := by
    rw [List.reverse_eq_nil_iff, List.dropWhile_eq_nil_iff]
    constructor
    · intro hall x hx
      have hx2 : x ∈ s.data.takeWhile pyIsSpace ++ s.data.dropWhile
          pyIsSpace := by
        rw [List.takeWhile_append_dropWhile]
        exact hx
      rcases List.mem_append.mp hx2 with hx3 | hx3
      · exact List.mem_takeWhile_imp hx3
      · exact hall x (List.mem_reverse.mpr hx3)
    · intro hall x hx
      have hx2 : x ∈ s.data.takeWhile pyIsSpace ++ s.data.dropWhile
          pyIsSpace := List.mem_append_right _ (List.mem_reverse.mp hx)
      rw [List.takeWhile_append_dropWhile] at hx2
      exact hall x hx2
  cases hany : s.data.any (fun ch => !pyIsSpace ch)
  · have hall : ∀ x ∈ s.data, pyIsSpace x = true := by
      intro x hx
      have h2 := List.any_eq_false.mp hany x hx
      simp at h2
      exact h2
    have hnil := h1.mpr hall
    simp [pyTruthyStr, pyStrip, hnil]
  · obtain ⟨x, hx, hpx⟩ := List.any_eq_true.mp hany
    have hne : ¬ (((s.data.dropWhile pyIsSpace).reverse.dropWhile
        pyIsSpace).reverse = []) := by
      intro hnil
      have h2 := h1.mp hnil x hx
      rw [h2] at hpx
      simp at hpx
    simp only [pyTruthyStr, pyStrip]
    cases hl : ((s.data.dropWhile pyIsSpace).reverse.dropWhile
        pyIsSpace).reverse
    · exact absurd hl hne
    · rfl

/-- C9: when the `variables` argument of `graphql_query` contains a
non-whitespace character but fails JSON parsing, the operation returns
`{"error": "Variables JSON format error"}` without issuing any HTTP
request; when the argument is `None`, empty, or whitespace-only, the call
behaves exactly like a call with no variables, which issues the single
request of `execute_query` with an empty variables mapping. -/
theorem variables_json_guard (jsonLoads : String → Except String JVal)
    (q : String) (o : Option String) (net : UrlOpenOutcome) :
    (∀ (s e : String), s.data.any (fun ch => !pyIsSpace ch) = true →
      jsonLoads s = Except.error e →
      graphql_query jsonLoads q (some s) o net
        = (OpResult.jsonStr
            (JVal.obj [("error", JVal.str "Variables JSON format error")]), []))
    ∧ (∀ s : String, s.data.any (fun ch => !pyIsSpace ch) = false →
      graphql_query jsonLoads q (some s) o net
        = graphql_query jsonLoads q none o net)
    ∧ graphql_query jsonLoads q none o net
        = (opResultOf (execute_query jsonLoads q none o net).1,
           [(execute_query jsonLoads q none o net).2]) := by
  refine ⟨?_, ?_, rfl⟩
  · intro s e hs he
    have hne : s.data.isEmpty = false := by
      obtain ⟨x, hx, _⟩ := List.any_eq_true.mp hs
      cases hl : s.data with
      | nil => rw [hl] at hx; cases hx
      | cons a l => rfl
    have hguard : (pyTruthyStr s && pyTruthyStr (pyStrip s)) = true := by
      rw [pyStrip_truthy, hs]
      simp [pyTruthyStr, hne]
    show (if (pyTruthyStr s && pyTruthyStr (pyStrip s)) = true then
        match jsonLoads s with
        | Except.error _ => (OpResult.jsonStr
            (JVal.obj [("error", JVal.str "Variables JSON format error")]), [])
        | Except.ok pv => graphqlQuerySend jsonLoads q (some pv) o net
      else graphqlQuerySend jsonLoads q none o net) = _
    rw [if_pos hguard, he]
  · intro s hs
    have hguard : (pyTruthyStr s && pyTruthyStr (pyStrip s)) = false := by
      simp [pyStrip_truthy, hs]
    show (if (pyTruthyStr s && pyTruthyStr (pyStrip s)) = true then
        match jsonLoads s with
        | Except.error _ => (OpResult.jsonStr
            (JVal.obj [("error", JVal.str "Variables JSON format error")]), [])
        | Except.ok pv => graphqlQuerySend jsonLoads q (some pv) o net
      else graphqlQuerySend jsonLoads q none o net) = _
    rw [if_neg (by simp [hguard])]
    rfl

/-- Witness for C9: an unparsable variables string is rejected with no
request issued, and a whitespace-only variables string behaves as no
variables. -/
theorem variables_json_guard_witness :
    graphql_query (fun _ => Except.error "Expecting value") "query Q"
        (some "not json") none (UrlOpenOutcome.urlError "down")
      = (OpResult.jsonStr
          (JVal.obj [("error", JVal.str "Variables JSON format error")]), [])
    ∧ graphql_query (fun _ => Except.error "Expecting value") "query Q"
        (some "   ") none (UrlOpenOutcome.urlError "down")
      = graphql_query (fun _ => Except.error "Expecting value") "query Q"
          none none (UrlOpenOutcome.urlError "down") :=
  ⟨(variables_json_guard (fun _ => Except.error "Expecting value") "query Q"
      none (UrlOpenOutcome.urlError "down")).1 "not json" "Expecting value"
      (by decide) rfl,
   (variables_json_guard (fun _ => Except.error "Expecting value") "query Q"
      none (UrlOpenOutcome.urlError "down")).2.1 "   " (by decide)⟩
